import Mathlib

/-!
Verification development for the shared camera capture-and-stream engine of
the AI-FLOW backend.  The definitions below are a shallow embedding of
`packages/backend/app/flask/routes_camera_stream.py` (`_SharedCamera`,
`stream_mjpeg`) and
`packages/backend/app/processors/components/extension/camera_input_processor.py`
(`CameraInputProcessor`).  Byte strings are lists of byte values, Python
floats are modelled as rationals (the properties at stake are control-flow
and counter properties, not rounding), threads are modelled by explicit
state passing: launching a worker is recorded in the state, and the worker
itself is a step function driven by a device oracle.
-/

namespace CameraStream

/-- Byte strings (Python `bytes`) as lists of byte values. -/
abbrev Bytes := List Nat

/-- ASCII bytes of a string literal (Python `str.encode()`). -/
def strBytes (s : String) : Bytes := s.toList.map Char.toNat

/-! ## StreamProtocolEncoder: the chunk yielded by `gen` in `stream_mjpeg` -/

/-- The chunk yielded per frame by `gen` inside `stream_mjpeg`:
`b"--" + boundary.encode() + b"\r\n" + b"Content-Type: image/jpeg\r\n" +
b"Content-Length: " + str(len(jpg)).encode() + b"\r\n\r\n" + jpg + b"\r\n"`. -/
def genChunk (boundary : String) (jpg : Bytes) : Bytes :=
  strBytes "--" ++ strBytes boundary ++ strBytes "\r\n" ++
  strBytes "Content-Type: image/jpeg\r\n" ++
  strBytes "Content-Length: " ++ strBytes (Nat.repr jpg.length) ++
  strBytes "\r\n\r\n" ++ jpg ++ strBytes "\r\n"

/-- The chunk as the specification words it: `--frame CRLF Content-Type:
image/jpeg CRLF Content-Length: <L> CRLF CRLF <bytes> CRLF` with `<L>` the
decimal rendering of the length.  Stated independently of `genChunk` so the
two can be compared. -/
def specChunk (jpg : Bytes) : Bytes :=
  strBytes "--frame" ++ strBytes "\r\n" ++
  strBytes "Content-Type: image/jpeg" ++ strBytes "\r\n" ++
  strBytes "Content-Length: " ++ strBytes (Nat.repr jpg.length) ++
  strBytes "\r\n" ++ strBytes "\r\n" ++ jpg ++ strBytes "\r\n"

/-! ## DeviceRegistry: `_SharedCamera.__new__` and the class-level state -/

/-- The registry key of `_SharedCamera.__new__`: `(index, width, height, backend)`. -/
structure DeviceIdentity where
  index : Int
  width : Int
  height : Int
  backend : Option Int
deriving DecidableEq, Repr

/-- Per-object state of one `_SharedCamera` instance.  `opens` counts the
`_open` calls performed by workers launched for this session (each launched
`_loop` performs exactly one `_open`); `launches` counts worker-thread
launches; `workerArgs` are the `(fps, jpeg_quality)` the running worker was
launched with. -/
structure CamS where
  index : Int
  width : Int
  height : Int
  backend : Option Int
  latest_jpeg : Option Bytes
  stopEvt : Bool
  threadAlive : Bool
  capOpen : Bool
  opens : Nat
  launches : Nat
  workerArgs : Option (ℚ × Int)
deriving DecidableEq, Repr

/-- The fields `__new__` sets on a freshly constructed object. -/
def CamS.new (k : DeviceIdentity) : CamS :=
  { index := k.index, width := k.width, height := k.height, backend := k.backend
    latest_jpeg := none, stopEvt := false, threadAlive := false, capOpen := false
    opens := 0, launches := 0, workerArgs := none }

/-- `_SharedCamera.start(fps, jpeg_quality)`: if the worker thread is alive,
return immediately (the new `fps`/`jpeg_quality` are dropped); otherwise
clear the stop event and launch the worker thread, whose first action is
its single `_open` call. -/
def CamS.start (s : CamS) (fps : ℚ) (q : Int) : CamS :=
  if s.threadAlive then s
  else { s with stopEvt := false, threadAlive := true
                opens := s.opens + 1, launches := s.launches + 1
                workerArgs := some (fps, q) }

/-- `_SharedCamera.stop()`: set the stop event, join the worker, drop the
thread reference, release and clear the capture handle.  `latest_jpeg` is
not touched. -/
def CamS.stop (s : CamS) : CamS :=
  { s with stopEvt := true, threadAlive := false, capOpen := false }

/-- `_SharedCamera.get_latest_jpeg()`. -/
def CamS.get_latest_jpeg (s : CamS) : Option Bytes := s.latest_jpeg

/-- Association-list lookup over the `_instances` dict. -/
def lookupId : List (DeviceIdentity × Nat) → DeviceIdentity → Option Nat
  | [], _ => none
  | (k', i) :: rest, k => if k' = k then some i else lookupId rest k

/-- The process-wide state: the class-level `_instances` map (key to object
identity) together with the constructed objects, identified by position. -/
structure Sys where
  instances : List (DeviceIdentity × Nat)
  sessions : List CamS
deriving DecidableEq, Repr

/-- `_SharedCamera.__new__`: under `_global_lock`, return the registered
object for `key` if present; otherwise construct a fresh object, register
it and return it.  Object identity is the position in `sessions`. -/
def Sys.getOrCreate (σ : Sys) (k : DeviceIdentity) : Nat × Sys :=
  match lookupId σ.instances k with
  | some i => (i, σ)
  | none =>
    let i := σ.sessions.length
    (i, ⟨σ.instances ++ [(k, i)], σ.sessions ++ [CamS.new k]⟩)

/-- The session object with identity `i` (identities handed out by
`getOrCreate` are always in range). -/
def Sys.sessionAt (σ : Sys) (i : Nat) : CamS :=
  σ.sessions.getD i (CamS.new ⟨0, 0, 0, none⟩)

/-- Call `start(fps, jpeg_quality)` on the session object with identity `i`. -/
def Sys.start (σ : Sys) (i : Nat) (fps : ℚ) (q : Int) : Sys :=
  ⟨σ.instances, σ.sessions.set i ((σ.sessionAt i).start fps q)⟩

/-! ## Device oracle

A deterministic oracle for the hardware: the outcome of the n-th
`cv2.VideoCapture(...).isOpened()` attempt, of the n-th `cap.read()` call
and of the n-th `cv2.imencode` call.  All reads made on behalf of one
worker consume from the same stream, in call order. -/

/-- Outcome of one `cap.read()` call: a frame (already modelled as the JPEG
bytes it will compress to), no frame (`ret` falsy or `frame is None`), or a
raised exception. -/
inductive ReadRes where
  | frameOk (b : Bytes)
  | noFrame
  | raises
deriving DecidableEq, Repr

structure Device where
  openOk : Nat → Bool
  readRes : Nat → ReadRes
  encodeOk : Nat → Bool

/-- OpenCV backend constants used by the two modules. -/
def CAP_ANY : Int := 0
def CAP_V4L2 : Int := 200
def CAP_DSHOW : Int := 700
def CAP_AVFOUNDATION : Int := 1200
def CAP_MSMF : Int := 1400

inductive Platform where
  | darwin
  | windows
  | linux
deriving DecidableEq, Repr

/-- Platform default backend in `_SharedCamera._open`. -/
def defaultBackend : Platform → Int
  | .darwin => CAP_AVFOUNDATION
  | .windows => CAP_MSMF
  | .linux => CAP_V4L2

/-- Ordered backend candidate list in `CameraInputProcessor._open_capture`. -/
def backendsFor : Platform → List Int
  | .darwin => [CAP_AVFOUNDATION, CAP_ANY]
  | .windows => [CAP_MSMF, CAP_DSHOW, CAP_ANY]
  | .linux => [CAP_V4L2, CAP_ANY]

/-! ## `CameraInputProcessor._open_capture` -/

/-- One backend trial inside the `for backend in backends` loop of
`_open_capture`: construct the capture (consuming one open attempt); if it
opened, perform the test read (consuming one read); the candidate is
accepted only when the test read returns a real frame.  An exception inside
the trial is caught by the per-backend `except` and rejects the candidate. -/
def backendTrial (d : Device) (ri oi : Nat) : Bool × Nat × Nat :=
  if d.openOk oi then
    match d.readRes ri with
    | .frameOk _ => (true, ri + 1, oi + 1)
    | _ => (false, ri + 1, oi + 1)
  else (false, ri, oi + 1)

/-- The `for backend in backends` loop of `_open_capture`: return the first
accepted backend, or `none` when every candidate failed (the final
`raise`).  Also returns the advanced read/open indices. -/
def openCaptureGo (d : Device) : List Int → Nat → Nat → Option Int × Nat × Nat
  | [], ri, oi => (none, ri, oi)
  | b :: rest, ri, oi =>
    match backendTrial d ri oi with
    | (true, ri', oi') => (some b, ri', oi')
    | (false, ri', oi') => openCaptureGo d rest ri' oi'

/-- `CameraInputProcessor._open_capture` on platform `p`. -/
def openCapture (d : Device) (p : Platform) (ri oi : Nat) : Option Int × Nat × Nat :=
  openCaptureGo d (backendsFor p) ri oi

/-! ## `_SharedCamera._open` -/

/-- `_SharedCamera._open`: choose the single backend (`self.backend` if set,
else the platform default), construct the capture (one open attempt), raise
if it is not opened, set the resolution, warm-up sleep.  No test read is
performed: the read index is returned unchanged.  Result: the backend used
on success, or `none` for the `RuntimeError`. -/
def sharedOpenAttempt (d : Device) (p : Platform) (backendCfg : Option Int)
    (ri oi : Nat) : Option Int × Nat × Nat :=
  let b := backendCfg.getD (defaultBackend p)
  if d.openOk oi then (some b, ri, oi + 1) else (none, ri, oi + 1)

/-! ## `_SharedCamera._loop` as a step function -/

/-- Why a worker loop exited. -/
inductive LoopExit where
  | stopped
  | failStop
  | error
deriving DecidableEq, Repr

/-- Worker-local view of one `_SharedCamera` while `_loop` runs. -/
structure SharedSt where
  capOpen : Bool
  latest_jpeg : Option Bytes
  stopSet : Bool
  reads : Nat
  opens : Nat
  encodes : Nat
deriving DecidableEq, Repr

/-- One iteration of the `while not self.stop_evt.is_set()` body of
`_SharedCamera._loop` (including the stop check): read; on `not ok or
frame is None` sleep 0.03 s and continue — there is no failure counter and
no reopen; on success encode and, if encode succeeded, overwrite
`latest_jpeg`; sleep `interval`. -/
def sharedStep (d : Device) (s : SharedSt) : Sum SharedSt (SharedSt × LoopExit) :=
  if s.stopSet then .inr (s, .stopped)
  else
    match d.readRes s.reads with
    | .frameOk b =>
      let s' := { s with reads := s.reads + 1, encodes := s.encodes + 1 }
      if d.encodeOk s.encodes then .inl { s' with latest_jpeg := some b }
      else .inl s'
    | .noFrame => .inl { s with reads := s.reads + 1 }
    | .raises => .inr ({ s with reads := s.reads + 1, capOpen := false }, .error)

/-- Run `sharedStep` for at most `n` iterations. -/
def sharedRun (d : Device) (s : SharedSt) : Nat → Sum SharedSt (SharedSt × LoopExit)
  | 0 => .inl s
  | n + 1 =>
    match sharedStep d s with
    | .inl s' => sharedRun d s' n
    | .inr r => .inr r

/-- `_SharedCamera._loop` from thread start: `_open` first (an exception
ends the loop via the outer `except`/`finally`), then iterate. -/
def sharedLoopRun (d : Device) (p : Platform) (backendCfg : Option Int)
    (latest0 : Option Bytes) (fuel : Nat) : Sum SharedSt (SharedSt × LoopExit) :=
  match sharedOpenAttempt d p backendCfg 0 0 with
  | (some _, ri, oi) =>
    sharedRun d { capOpen := true, latest_jpeg := latest0, stopSet := false
                  reads := ri, opens := oi, encodes := 0 } fuel
  | (none, ri, oi) =>
    .inr ({ capOpen := false, latest_jpeg := latest0, stopSet := false
            reads := ri, opens := oi, encodes := 0 }, .error)

/-! ## `CameraInputProcessor._ensure_camera_open` and `_stream_loop` -/

/-- Poll interval derivation, textually shared by `_SharedCamera._loop`
(`interval = 1.0 / max(1.0, fps)`) and `CameraInputProcessor._stream_loop`
(`frame_interval = 1.0 / max(1.0, self.target_fps)`). -/
def loopInterval (fps : ℚ) : ℚ := 1 / max 1 fps

/-- `cv2.IMWRITE_JPEG_QUALITY`. -/
def IMWRITE_JPEG_QUALITY : Int := 1

/-- The parameter list passed to `cv2.imencode` by both
`_SharedCamera._loop` and `CameraInputProcessor._encode_frame_to_base64`:
`[cv2.IMWRITE_JPEG_QUALITY, quality]` with the configured quality passed
through as-is. -/
def imencodeParams (q : Int) : List Int := [IMWRITE_JPEG_QUALITY, q]

/-- Result of `_ensure_camera_open`: `ok` is whether it returned normally
(`False` models a raised exception), `cap` whether `self._cap` holds an
opened capture afterwards (a verify-read failure raises while leaving the
freshly opened capture assigned). -/
structure EnsureRes where
  ok : Bool
  cap : Bool
  reads : Nat
  opens : Nat
deriving DecidableEq, Repr

/-- The reopen path of `_ensure_camera_open`: `_open_capture`, resolution
setup, warm-up sleep, then the verify read; a verify read returning no
frame raises, with the opened capture still assigned. -/
def reopenCamera (d : Device) (p : Platform) (ri oi : Nat) : EnsureRes :=
  match openCapture d p ri oi with
  | (some _, ri', oi') =>
    match d.readRes ri' with
    | .frameOk _ => ⟨true, true, ri' + 1, oi'⟩
    | _ => ⟨false, true, ri' + 1, oi'⟩
  | (none, ri', oi') => ⟨false, false, ri', oi'⟩

/-- `CameraInputProcessor._ensure_camera_open`: when a capture is held and
still delivers a frame on a test read, return; when the test read returns
no frame, release and reopen; a raising test read propagates without
releasing.  Without a held capture, reopen. -/
def ensureOpen (d : Device) (p : Platform) (cap : Bool) (ri oi : Nat) : EnsureRes :=
  if cap then
    match d.readRes ri with
    | .frameOk _ => ⟨true, true, ri + 1, oi⟩
    | .noFrame => reopenCamera d p (ri + 1) oi
    | .raises => ⟨false, true, ri + 1, oi⟩
  else reopenCamera d p ri oi

/-- `max_failures` in `_stream_loop`. -/
def maxFailures : Nat := 10

/-- Outcome of the soft-recover `for retry in range(3)` loop: recovered on
one of the re-reads, exhausted all of them, or a re-read raised (escaping
to the outer read `except`).  Each re-read is preceded by a 0.05 s sleep,
logged in order. -/
inductive SoftRes where
  | recovered (ri : Nat) (sleeps : List ℚ)
  | notRecovered (ri : Nat) (sleeps : List ℚ)
  | raised (ri : Nat) (sleeps : List ℚ)
deriving DecidableEq, Repr

/-- The soft-recover loop of `_stream_loop` with `n` retries left. -/
def softRetry (d : Device) (ri : Nat) (sleeps : List ℚ) : Nat → SoftRes
  | 0 => .notRecovered ri sleeps
  | n + 1 =>
    let sl := sleeps ++ [(1 : ℚ)/20]
    match d.readRes ri with
    | .frameOk _ => .recovered (ri + 1) sl
    | .noFrame => softRetry d (ri + 1) sl n
    | .raises => .raised (ri + 1) sl

/-- Worker-local state while `CameraInputProcessor._stream_loop` runs:
`cap`/`latest` are the shared `self._cap`/`self._latest_b64`, `failures`
the loop-local `consecutive_failures`, the indices drive the oracle. -/
structure LoopSt where
  cap : Bool
  failures : Nat
  latest : Option Bytes
  stopSet : Bool
  reads : Nat
  opens : Nat
  encodes : Nat
deriving DecidableEq, Repr

/-- The read half of one `_stream_loop` iteration (lines 149–215): reached
with the camera believed available.  Mirrors, in order: the
`if self._cap and self._cap.isOpened()` guard with its `else` fallback; the
read with its surrounding `try/except`; on no frame the increment, soft
retries, fail-stop check and reopen escalation; on success the counter
reset and the encode (an encode failure only logs and skips). -/
def readPhase (d : Device) (p : Platform) (s : LoopSt) :
    Sum LoopSt (LoopSt × LoopExit) :=
  if s.cap = false then
    let c := s.failures + 1
    if maxFailures ≤ c then .inr ({ s with failures := c }, .failStop)
    else .inl { s with failures := c }
  else
    match d.readRes s.reads with
    | .frameOk b =>
      let s' := { s with failures := 0, reads := s.reads + 1, encodes := s.encodes + 1 }
      if d.encodeOk s.encodes then .inl { s' with latest := some b }
      else .inl s'
    | .raises =>
      let c := s.failures + 1
      let s' := { s with failures := c, reads := s.reads + 1 }
      if maxFailures ≤ c then .inr (s', .failStop) else .inl s'
    | .noFrame =>
      let c := s.failures + 1
      match softRetry d (s.reads + 1) [] 3 with
      | .recovered ri' _ => .inl { s with failures := 0, reads := ri' }
      | .raised ri' _ =>
        let c' := c + 1
        let s' := { s with failures := c', reads := ri' }
        if maxFailures ≤ c' then .inr (s', .failStop) else .inl s'
      | .notRecovered ri' _ =>
        if maxFailures ≤ c then .inr ({ s with failures := c, reads := ri' }, .failStop)
        else
          let e := ensureOpen d p false ri' s.opens
          if e.ok then
            .inl { s with cap := e.cap, failures := c, reads := e.reads, opens := e.opens }
          else
            .inl { s with cap := e.cap, failures := c + 1, reads := e.reads, opens := e.opens }

/-- One full iteration of the `while not self._stop_event.is_set()` body of
`_stream_loop` (stop check, camera-availability check with its reopen
attempt and fail-stop bookkeeping, then the read half). -/
def procStep (d : Device) (p : Platform) (s : LoopSt) :
    Sum LoopSt (LoopSt × LoopExit) :=
  if s.stopSet then .inr (s, .stopped)
  else if s.cap = false then
    let e := ensureOpen d p false s.reads s.opens
    if e.ok then
      readPhase d p { s with cap := e.cap, reads := e.reads, opens := e.opens }
    else
      let c := s.failures + 1
      let s' := { s with cap := e.cap, failures := c, reads := e.reads, opens := e.opens }
      if maxFailures ≤ c then .inr (s', .failStop) else .inl s'
  else readPhase d p s

/-- Run `procStep` for at most `n` iterations. -/
def procRun (d : Device) (p : Platform) (s : LoopSt) :
    Nat → Sum LoopSt (LoopSt × LoopExit)
  | 0 => .inl s
  | n + 1 =>
    match procStep d p s with
    | .inl s' => procRun d p s' n
    | .inr r => .inr r

/-- `_stream_loop` from thread start: the initial `_ensure_camera_open`
(whose exception ends the thread via the outer `except`), then the loop. -/
def streamLoopRun (d : Device) (p : Platform) (latest0 : Option Bytes)
    (fuel : Nat) : Sum LoopSt (LoopSt × LoopExit) :=
  let e := ensureOpen d p false 0 0
  let s0 : LoopSt :=
    { cap := e.cap, failures := 0, latest := latest0, stopSet := false
      reads := e.reads, opens := e.opens, encodes := 0 }
  if e.ok then procRun d p s0 fuel else .inr (s0, .error)

/-! ## `CameraInputProcessor` lifecycle and `process()` -/

/-- Constructor configuration of `CameraInputProcessor` (the fields
`__init__` reads from `config`). -/
structure Config where
  camera_index : Int
  resolution_width : Int
  resolution_height : Int
  jpeg_quality : Int
  read_attempts : Int
  warmup_ms : Int
  stream_mode : Int
  target_fps : ℚ
  init_timeout_ms : Int
  output_type : String
deriving DecidableEq, Repr

/-- Shared mutable state of one `CameraInputProcessor` instance as seen by
`process()` and the lifecycle helpers: `_cap`, `_stream_thread`
(aliveness), `_stop_event` (`none` = attribute is `None`), `_latest_b64`
(modelled by the JPEG bytes the stored base64 string encodes), plus the
bookkeeping counters driving the device oracle. -/
structure ProcState where
  cap : Bool
  threadAlive : Bool
  stopEventSet : Option Bool
  latest : Option Bytes
  launches : Nat
  reads : Nat
  opens : Nat
  encodes : Nat
deriving DecidableEq, Repr

/-- `CameraInputProcessor._start_stream_if_needed`: no-op when the stream
thread is alive; otherwise clear the latest-frame slot, install a fresh
(unset) stop event and launch the stream worker. -/
def startStreamIfNeeded (st : ProcState) : ProcState :=
  if st.threadAlive then st
  else { st with latest := none, stopEventSet := some false
                 threadAlive := true, launches := st.launches + 1 }

/-- `CameraInputProcessor._stop_stream`: set the stop event if present,
join the worker with a bounded timeout, then drop both the thread and the
stop-event references.  `_latest_b64` and `_cap` are not touched. -/
def stopStream (st : ProcState) : ProcState :=
  { st with threadAlive := false, stopEventSet := none }

/-- `CameraInputProcessor._release_camera`. -/
def releaseCamera (st : ProcState) : ProcState := { st with cap := false }

/-- `CameraInputProcessor.cancel`. -/
def cancel (st : ProcState) : ProcState := releaseCamera (stopStream st)

/-- `f"http://localhost:5000/camera/{self.camera_index}.mjpg"`. -/
def streamUrl (idx : Int) : String :=
  "http://localhost:5000/camera/" ++ toString idx ++ ".mjpg"

/-- An element of the list `process()` returns: the MJPEG stream URL, or
the pure-base64 rendering of one JPEG frame (base64 itself is injective
bookkeeping and is represented by the encoded JPEG bytes). -/
inductive ProcOut where
  | url (s : String)
  | b64OfJpeg (b : Bytes)
deriving DecidableEq, Repr

/-- Result of the single-shot read-with-retries (line 322 and the retry
loop below it). -/
inductive SingleRead where
  | got (b : Bytes) (ri : Nat)
  | failed (ri : Nat)
  | excRaised (ri : Nat)
deriving DecidableEq, Repr

/-- The single-shot retry loop: `for _ in range(max(1, read_attempts) - 1)`. -/
def singleShotReadLoop (d : Device) (ri : Nat) : Nat → SingleRead
  | 0 => .failed ri
  | n + 1 =>
    match d.readRes ri with
    | .frameOk b => .got b (ri + 1)
    | .noFrame => singleShotReadLoop d (ri + 1) n
    | .raises => .excRaised (ri + 1)

/-- First single-shot read, falling into the retry loop when it returns no
frame. -/
def singleShotRead (d : Device) (ri : Nat) (retries : Nat) : SingleRead :=
  match d.readRes ri with
  | .frameOk b => .got b (ri + 1)
  | .noFrame => singleShotReadLoop d (ri + 1) retries
  | .raises => .excRaised (ri + 1)

/-- The single-shot branch of `process()` (stream_mode ≠ 1): open a local
capture through `_open_capture`, set resolution, warm up, read with
retries, encode; the local capture is released in the `finally`, so the
instance `_cap` is untouched. -/
def singleShot (cfg : Config) (p : Platform) (st : ProcState) (d : Device) :
    Except String (List ProcOut × ProcState) :=
  match openCapture d p st.reads st.opens with
  | (none, _, _) => .error "Cannot open camera with any backend"
  | (some _, ri, oi) =>
    match singleShotRead d ri ((max 1 cfg.read_attempts - 1).toNat) with
    | .got b ri' =>
      if d.encodeOk st.encodes then
        .ok ([.b64OfJpeg b],
             { st with reads := ri', opens := oi, encodes := st.encodes + 1 })
      else .error "Failed to encode image to JPEG"
    | .failed _ => .error "Failed to capture frame after multiple attempts"
    | .excRaised _ => .error "read exception"

/-- The synchronous seed capture of the streaming branch (lines 294–308):
`_ensure_camera_open`, one read, encode, store into `_latest_b64`; every
failure is wrapped into the `Camera not ready (seed failed)` error. -/
def seedCapture (p : Platform) (st : ProcState) (d : Device) :
    Except String (List ProcOut × ProcState) :=
  let e := ensureOpen d p st.cap st.reads st.opens
  if e.ok then
    match d.readRes e.reads with
    | .frameOk b =>
      if d.encodeOk st.encodes then
        .ok ([.b64OfJpeg b],
             { st with cap := e.cap, reads := e.reads + 1, opens := e.opens
                       encodes := st.encodes + 1, latest := some b })
      else .error "Camera not ready (seed failed)"
    | _ => .error "Camera not ready (seed failed)"
  else .error "Camera not ready (seed failed)"

/-- `CameraInputProcessor.process()`.  The background worker runs
concurrently in reality; its only interaction with `process()` is a write
to `_latest_b64` observed by the wait loop, injected here as the oracle
`waitObserved` (what the worker published before the `init_timeout_ms`
deadline, `none` if nothing). -/
def process (cfg : Config) (p : Platform) (st : ProcState) (d : Device)
    (waitObserved : Option Bytes) : Except String (List ProcOut × ProcState) :=
  if cfg.output_type = "videoStream" then
    .ok ([.url (streamUrl cfg.camera_index)], st)
  else if cfg.stream_mode = 1 then
    let st1 := startStreamIfNeeded st
    match st1.latest <|> waitObserved with
    | some b => .ok ([.b64OfJpeg b], st1)
    | none => seedCapture p st1 d
  else singleShot cfg p st d

/-! ## The `stream_mjpeg` route: query-parameter conversion -/

/-- Whitespace recognized when `int()`/`float()` strip their argument. -/
def isSpaceCh (c : Char) : Bool := c == ' ' || c == '\t' || c == '\n' || c == '\r'

/-- Strip leading and trailing whitespace. -/
def stripChars (cs : List Char) : List Char :=
  ((cs.dropWhile isSpaceCh).reverse.dropWhile isSpaceCh).reverse

def isDigitCh (c : Char) : Bool := '0' ≤ c && c ≤ '9'

/-- Value of a digit string. -/
def digitsVal (cs : List Char) : Nat :=
  cs.foldl (fun a c => 10 * a + (c.toNat - '0'.toNat)) 0

/-- A nonempty all-digit string, or failure. -/
def parseDigits (cs : List Char) : Option Nat :=
  if !cs.isEmpty && cs.all isDigitCh then some (digitsVal cs) else none

/-- Sign handling of Python `int()`. -/
def pyIntOfChars : List Char → Option Int
  | '+' :: rest => (parseDigits rest).map Int.ofNat
  | '-' :: rest => (parseDigits rest).map fun n => -(n : Int)
  | cs => (parseDigits cs).map Int.ofNat

/-- Model of Python `int(str)` as called at lines 101–104 of the route:
optional surrounding whitespace, optional sign, a nonempty digit string;
everything else raises `ValueError`.  (Underscore separators and non-ASCII
digits, which CPython also accepts, are out of scope.) -/
def pyInt (s : String) : Option Int := pyIntOfChars (stripChars s.toList)

/-- Unsigned part of Python `float(str)`: `digits`, `digits.digits`,
`digits.` or `.digits`. -/
def pyFloatMag (cs : List Char) : Option ℚ :=
  match cs.splitOn '.' with
  | [ip] => (parseDigits ip).map fun n => (n : ℚ)
  | [ip, fp] =>
    if (ip.all isDigitCh && fp.all isDigitCh) && !(ip.isEmpty && fp.isEmpty) then
      some ((digitsVal ip : ℚ) + (digitsVal fp : ℚ) / ((10 : ℚ) ^ fp.length))
    else none
  | _ => none

/-- Sign handling of Python `float()`. -/
def pyFloatOfChars : List Char → Option ℚ
  | '+' :: rest => pyFloatMag rest
  | '-' :: rest => (pyFloatMag rest).map Neg.neg
  | cs => pyFloatMag cs

/-- Model of Python `float(str)` as called at line 103: optional
surrounding whitespace, optional sign, a finite decimal literal; everything
else raises `ValueError`.  (Exponent notation and `inf`/`nan`, which
CPython also accepts, are out of scope; the claims settled here concern
only the failure path and the integral default.) -/
def pyFloat (s : String) : Option ℚ := pyFloatOfChars (stripChars s.toList)

/-- `request.args.get(name, default)` followed by `int(...)`: an absent
parameter yields the integer default, a present one is converted. -/
def parseArgInt (arg : Option String) (dflt : Int) : Option Int :=
  match arg with
  | none => some dflt
  | some s => pyInt s

/-- `request.args.get("fps", 15)` followed by `float(...)`. -/
def parseArgFloat (arg : Option String) (dflt : ℚ) : Option ℚ :=
  match arg with
  | none => some dflt
  | some s => pyFloat s

/-- What a successful `stream_mjpeg` call hands to the `Response`: the
session it streams from, the boundary token and the mimetype. -/
structure RouteOut where
  sessionId : Nat
  boundary : String
  mimetype : String
deriving DecidableEq, Repr

/-- The `stream_mjpeg` route body up to constructing the `Response`:
convert `w`, `h`, `fps`, `q` in source order (a conversion error raises
before `_SharedCamera(...)` is reached, leaving the registry untouched —
modelled as result `none` with the state returned unchanged); then look up
or create the shared session with `backend=None` and `start` it. -/
def stream_mjpeg (idx : Int) (wArg hArg fpsArg qArg : Option String)
    (σ : Sys) : Option RouteOut × Sys :=
  match parseArgInt wArg 640 with
  | none => (none, σ)
  | some width =>
    match parseArgInt hArg 480 with
    | none => (none, σ)
    | some height =>
      match parseArgFloat fpsArg 15 with
      | none => (none, σ)
      | some fps =>
        match parseArgInt qArg 85 with
        | none => (none, σ)
        | some q =>
          let r := σ.getOrCreate ⟨idx, width, height, none⟩
          (some ⟨r.1, "frame", "multipart/x-mixed-replace; boundary=frame"⟩,
           r.2.start r.1 fps q)

/-! ## Helper lemmas -/

theorem lookupId_append_self (l : List (DeviceIdentity × Nat)) (k : DeviceIdentity)
    (i : Nat) (h : lookupId l k = none) : lookupId (l ++ [(k, i)]) k = some i := by
  induction l with
  | nil =>
    show lookupId ((k, i) :: []) k = some i
    simp [lookupId]
  | cons p rest ih =>
    obtain ⟨k', j⟩ := p
    by_cases hk : k' = k
    · simp [lookupId, hk] at h
    · simp only [List.cons_append]
      simp only [lookupId, hk, if_false] at h ⊢
      exact ih h

theorem getD_append_last {α : Type} (l : List α) (a d : α) :
    (l ++ [a]).getD l.length d = a := by
  induction l with
  | nil => rfl
  | cons x xs ih => simp [ih]

theorem set_append_last {α : Type} (l : List α) (a b : α) :
    (l ++ [a]).set l.length b = l ++ [b] := by
  induction l with
  | nil => rfl
  | cons x xs ih => simp [List.set, ih]

/-! ## Claim theorems -/

/-- C2: for every compressed frame byte string and the fixed boundary token
`frame`, the chunk emitted by `gen` is exactly
`--frame CRLF Content-Type: image/jpeg CRLF Content-Length: <L> CRLF CRLF`,
then the frame bytes, then `CRLF`, with `<L>` the decimal rendering of the
length. -/
theorem gen_chunk_matches_spec (jpg : Bytes) : genChunk "frame" jpg = specChunk jpg := by
  simp [genChunk, specChunk, strBytes]

/-- C1: looking the same `DeviceIdentity` up twice in `_SharedCamera.__new__`
returns the very same session object; a second lookup constructs nothing; a
fresh identity constructs exactly one new session object, initialized by
`__new__`; and two subsequent `start` calls on that shared session perform
exactly one hardware open. -/
theorem get_or_create_shares_session (σ : Sys) (k : DeviceIdentity)
    (f1 f2 : ℚ) (q1 q2 : Int) :
    ((σ.getOrCreate k).2.getOrCreate k).1 = (σ.getOrCreate k).1 ∧
    ((σ.getOrCreate k).2.getOrCreate k).2 = (σ.getOrCreate k).2 ∧
    (lookupId σ.instances k ≠ none → (σ.getOrCreate k).2 = σ) ∧
    (lookupId σ.instances k = none →
      (σ.getOrCreate k).2.sessions.length = σ.sessions.length + 1 ∧
      (σ.getOrCreate k).2.sessionAt (σ.getOrCreate k).1 = CamS.new k ∧
      (((((σ.getOrCreate k).2.start (σ.getOrCreate k).1 f1 q1).start
          (σ.getOrCreate k).1 f2 q2).sessionAt (σ.getOrCreate k).1).opens = 1)) := by
  cases hcase : lookupId σ.instances k with
  | some i =>
    refine ⟨?_, ?_, fun _ => ?_, fun hn => ?_⟩
    · simp [Sys.getOrCreate, hcase]
    · simp [Sys.getOrCreate, hcase]
    · simp [Sys.getOrCreate, hcase]
    · exact Option.noConfusion hn
  | none =>
    have hlk := lookupId_append_self σ.instances k σ.sessions.length hcase
    refine ⟨?_, ?_, fun hs => ?_, fun _ => ⟨?_, ?_, ?_⟩⟩
    · simp [Sys.getOrCreate, hcase, hlk]
    · simp [Sys.getOrCreate, hcase, hlk]
    · exact absurd rfl hs
    · simp [Sys.getOrCreate, hcase]
    · simp [Sys.getOrCreate, hcase, Sys.sessionAt, getD_append_last]
    · simp only [Sys.getOrCreate, hcase]
      simp [Sys.start, Sys.sessionAt, getD_append_last, set_append_last,
            CamS.start, CamS.new]

/-- Witness for C1 at the identity `(0, 640, 480, none)` on the empty
registry. -/
theorem get_or_create_shares_session_witness :
    (((Sys.mk [] []).getOrCreate ⟨0, 640, 480, none⟩).2.getOrCreate
        ⟨0, 640, 480, none⟩).1 = ((Sys.mk [] []).getOrCreate ⟨0, 640, 480, none⟩).1 ∧
    (((Sys.mk [] []).getOrCreate ⟨0, 640, 480, none⟩).2.getOrCreate
        ⟨0, 640, 480, none⟩).2 = ((Sys.mk [] []).getOrCreate ⟨0, 640, 480, none⟩).2 ∧
    ((Sys.mk [] []).getOrCreate ⟨0, 640, 480, none⟩).2.sessions.length = 1 ∧
    (((((Sys.mk [] []).getOrCreate ⟨0, 640, 480, none⟩).2.start
        ((Sys.mk [] []).getOrCreate ⟨0, 640, 480, none⟩).1 15 85).start
        ((Sys.mk [] []).getOrCreate ⟨0, 640, 480, none⟩).1 30 50).sessionAt
        ((Sys.mk [] []).getOrCreate ⟨0, 640, 480, none⟩).1).opens = 1 := by
  have h := get_or_create_shares_session ⟨[], []⟩ ⟨0, 640, 480, none⟩ 15 85 30 50
  exact ⟨h.1, h.2.1, (h.2.2.2 rfl).1, (h.2.2.2 rfl).2.2⟩

/-- C6: `start` is idempotent on both implementations.  On a session whose
worker is alive, `_SharedCamera.start` is a no-op even for different
`fps`/`quality` (the new values are dropped); two consecutive `start` calls
from a dead-worker state launch exactly one worker, and the second call's
parameters leave the state untouched.  `_start_stream_if_needed` behaves the
same way. -/
theorem start_idempotent (s : CamS) (p : ProcState) (f1 f2 : ℚ) (q1 q2 : Int) :
    (s.threadAlive = true → s.start f1 q1 = s) ∧
    (s.threadAlive = false →
      ((s.start f1 q1).start f2 q2 = s.start f1 q1 ∧
       ((s.start f1 q1).start f2 q2).launches = s.launches + 1)) ∧
    (p.threadAlive = true → startStreamIfNeeded p = p) ∧
    (p.threadAlive = false →
      (startStreamIfNeeded (startStreamIfNeeded p)).launches = p.launches + 1) := by
  refine ⟨fun h => ?_, fun h => ⟨?_, ?_⟩, fun h => ?_, fun h => ?_⟩ <;>
    simp [CamS.start, startStreamIfNeeded, h]

/-- Witness for C6 on a stopped session and a stopped processor. -/
theorem start_idempotent_witness :
    ((CamS.new ⟨0, 640, 480, none⟩).start 15 85).start 7 50 =
      (CamS.new ⟨0, 640, 480, none⟩).start 15 85 ∧
    (((CamS.new ⟨0, 640, 480, none⟩).start 15 85).start 7 50).launches = 1 ∧
    (startStreamIfNeeded (startStreamIfNeeded
        ⟨false, false, none, none, 0, 0, 0, 0⟩)).launches = 1 := by
  have h := start_idempotent (CamS.new ⟨0, 640, 480, none⟩)
    ⟨false, false, none, none, 0, 0, 0, 0⟩ 15 7 85 50
  exact ⟨(h.2.1 rfl).1, (h.2.1 rfl).2, h.2.2.2 rfl⟩

/-- A stopped `_SharedCamera` session that still holds a stale cached
frame. -/
def staleShared : CamS :=
  { index := 0, width := 640, height := 480, backend := none
    latest_jpeg := some [1, 2, 3], stopEvt := true, threadAlive := false
    capOpen := false, opens := 1, launches := 1, workerArgs := some (15, 85) }

/-- C7 counterexample: a `start()` call on a `_SharedCamera` session that
finds no live worker does **not** clear the stale cached frame — the stale
bytes are still served after the restart. -/
theorem shared_start_keeps_stale_frame :
    staleShared.threadAlive = false ∧
    (staleShared.start 15 85).latest_jpeg = some [1, 2, 3] ∧
    ¬(staleShared.start 15 85).latest_jpeg = none := by
  refine ⟨rfl, rfl, fun h => ?_⟩
  simp [staleShared, CamS.start] at h

/-- C7 amended: stopping leaves the frame cache untouched in both
implementations (the stale frame stays available); a
`CameraInputProcessor` start that finds no live worker clears the stale
frame before launching, while `_SharedCamera.start` never clears it. -/
theorem frame_cache_retention (s : CamS) (p : ProcState) (f : ℚ) (q : Int) :
    s.stop.latest_jpeg = s.latest_jpeg ∧
    s.stop.get_latest_jpeg = s.get_latest_jpeg ∧
    (s.start f q).latest_jpeg = s.latest_jpeg ∧
    (stopStream p).latest = p.latest ∧
    (cancel p).latest = p.latest ∧
    (p.threadAlive = false → (startStreamIfNeeded p).latest = none) ∧
    (p.threadAlive = true → startStreamIfNeeded p = p) := by
  refine ⟨rfl, rfl, ?_, rfl, rfl,
          fun h => by simp [startStreamIfNeeded, h],
          fun h => by simp [startStreamIfNeeded, h]⟩
  by_cases ha : s.threadAlive <;> simp [CamS.start, ha]

/-- Witness for C7 on concrete stopped states carrying a stale frame. -/
theorem frame_cache_retention_witness :
    staleShared.stop.latest_jpeg = some [1, 2, 3] ∧
    (startStreamIfNeeded ⟨false, false, none, some [4], 2, 0, 0, 0⟩).latest = none ∧
    (stopStream ⟨false, true, some false, some [4], 2, 0, 0, 0⟩).latest = some [4] := by
  have h1 := frame_cache_retention staleShared
    ⟨false, false, none, some [4], 2, 0, 0, 0⟩ 15 85
  have h2 := frame_cache_retention staleShared
    ⟨false, true, some false, some [4], 2, 0, 0, 0⟩ 15 85
  exact ⟨h1.1, h1.2.2.2.2.2.1 rfl, h2.2.2.2.1⟩

/-- C9: when `output_type` is `videoStream`, `process()` returns exactly the
one-element list holding the MJPEG URL for the configured camera index, and
leaves the processor state untouched — no capture is opened and no stream
thread is launched, whatever `stream_mode` says. -/
theorem process_videostream_pure (cfg : Config) (p : Platform) (st : ProcState)
    (d : Device) (w : Option Bytes) (h : cfg.output_type = "videoStream") :
    process cfg p st d w =
      .ok ([.url ("http://localhost:5000/camera/" ++ toString cfg.camera_index
                   ++ ".mjpg")], st) := by
  simp [process, h, streamUrl]

/-- Witness for C9: camera index 3, `stream_mode = 0`, a device that would
fail every open. -/
theorem process_videostream_pure_witness :
    process ⟨3, 640, 480, 85, 5, 150, 0, 15, 1500, "videoStream"⟩ .linux
        ⟨false, false, none, none, 0, 0, 0, 0⟩
        ⟨fun _ => false, fun _ => .noFrame, fun _ => false⟩ none =
      .ok ([.url "http://localhost:5000/camera/3.mjpg"],
           ⟨false, false, none, none, 0, 0, 0, 0⟩) := by
  exact process_videostream_pure ⟨3, 640, 480, 85, 5, 150, 0, 15, 1500, "videoStream"⟩
    .linux ⟨false, false, none, none, 0, 0, 0, 0⟩
    ⟨fun _ => false, fun _ => .noFrame, fun _ => false⟩ none rfl

/-- C10: in `stream_mjpeg`, a present `w`/`h`/`q` value that `int()` rejects,
or a present `fps` value that `float()` rejects, raises before
`_SharedCamera(...)` is reached: the registry gains no entry, no session is
started, and the state is returned unchanged.  With all four parameters
absent the defaults `w=640, h=480, fps=15, q=85` are used for the identity
and the `start` call. -/
theorem route_param_errors (idx : Int) (s : String) (a1 a2 a3 : Option String)
    (σ : Sys) :
    (pyInt s = none →
      stream_mjpeg idx (some s) a1 a2 a3 σ = (none, σ) ∧
      stream_mjpeg idx none (some s) a2 a3 σ = (none, σ) ∧
      stream_mjpeg idx none none none (some s) σ = (none, σ)) ∧
    (pyFloat s = none →
      stream_mjpeg idx none none (some s) a3 σ = (none, σ)) ∧
    stream_mjpeg idx none none none none σ =
      (some ⟨(σ.getOrCreate ⟨idx, 640, 480, none⟩).1, "frame",
             "multipart/x-mixed-replace; boundary=frame"⟩,
       (σ.getOrCreate ⟨idx, 640, 480, none⟩).2.start
         (σ.getOrCreate ⟨idx, 640, 480, none⟩).1 15 85) := by
  refine ⟨fun h => ⟨?_, ?_, ?_⟩, fun h => ?_, ?_⟩ <;>
    simp [stream_mjpeg, parseArgInt, parseArgFloat, *]

/-- Witness for C10: the unparseable string `abc` on the empty registry. -/
theorem route_param_errors_witness :
    stream_mjpeg 0 (some "abc") none none none ⟨[], []⟩ = (none, ⟨[], []⟩) ∧
    stream_mjpeg 0 none (some "abc") none none ⟨[], []⟩ = (none, ⟨[], []⟩) ∧
    stream_mjpeg 0 none none (some "abc") none ⟨[], []⟩ = (none, ⟨[], []⟩) ∧
    stream_mjpeg 0 none none none (some "abc") ⟨[], []⟩ = (none, ⟨[], []⟩) := by
  have h := route_param_errors 0 "abc" none none none ⟨[], []⟩
  have hi : pyInt "abc" = none := by decide
  have hf : pyFloat "abc" = none := by decide
  exact ⟨(h.1 hi).1, (h.1 hi).2.1, h.2.1 hf, (h.1 hi).2.2⟩

/-- A device that opens on every attempt but never returns a frame. -/
def dOpenNoFrame : Device := ⟨fun _ => true, fun _ => .noFrame, fun _ => true⟩

/-- A device on which every open attempt fails. -/
def dNoOpen : Device := ⟨fun _ => false, fun _ => .noFrame, fun _ => true⟩

/-- A device that misses three reads and then delivers frames. -/
def dRecover : Device :=
  ⟨fun _ => true, fun i => if i < 3 then .noFrame else .frameOk [7], fun _ => true⟩

/-- A backend returned by the `_open_capture` loop comes from its candidate
list. -/
theorem openCaptureGo_mem (d : Device) (bs : List Int) (ri oi : Nat) (c : Int)
    (h : (openCaptureGo d bs ri oi).1 = some c) : c ∈ bs := by
  induction bs generalizing ri oi with
  | nil => exact Option.noConfusion h
  | cons b rest ih =>
    simp only [openCaptureGo] at h
    rcases htr : backendTrial d ri oi with ⟨ok, ri', oi'⟩
    rw [htr] at h
    cases ok with
    | true =>
      simp only at h
      exact (Option.some_inj.mp h) ▸ List.mem_cons_self b rest
    | false =>
      simp only at h
      exact List.mem_cons_of_mem b (ih ri' oi' h)

/-- C4 counterexample: on a device that opens but can never deliver a real
frame, `_SharedCamera._open` accepts its single platform-default candidate
without any test read (the read stream is untouched), whereas the test-read
opener `_open_capture` rejects every candidate of the very same device. -/
theorem shared_open_accepts_without_test_read :
    (sharedOpenAttempt dOpenNoFrame .linux none 0 0).1 = some CAP_V4L2 ∧
    (sharedOpenAttempt dOpenNoFrame .linux none 0 0).2.1 = 0 ∧
    dOpenNoFrame.readRes 0 = .noFrame ∧
    (openCapture dOpenNoFrame .linux 0 0).1 = none :=
  ⟨rfl, rfl, rfl, rfl⟩

/-- C4 amended: `CameraInputProcessor._open_capture` walks the ordered
platform candidate list, accepts a candidate exactly when it opens and its
test read returns a real frame, falls through to the next candidate
otherwise, and raises only once the list is exhausted; the raise reaches
the `process()` caller on the synchronous paths.  `_SharedCamera._open`,
in contrast, tries one platform-default backend with no test read. -/
theorem open_capture_backend_fallback (d : Device) (p : Platform) (b : Int)
    (bs : List Int) (ri oi : Nat) (f : Bytes) (cfg : Config) (st : ProcState) :
    (d.openOk oi = true → d.readRes ri = .frameOk f →
      openCaptureGo d (b :: bs) ri oi = (some b, ri + 1, oi + 1)) ∧
    (d.openOk oi = false →
      openCaptureGo d (b :: bs) ri oi = openCaptureGo d bs ri (oi + 1)) ∧
    (d.openOk oi = true → d.readRes ri = .noFrame →
      openCaptureGo d (b :: bs) ri oi = openCaptureGo d bs (ri + 1) (oi + 1)) ∧
    (d.openOk oi = true → d.readRes ri = .raises →
      openCaptureGo d (b :: bs) ri oi = openCaptureGo d bs (ri + 1) (oi + 1)) ∧
    openCaptureGo d [] ri oi = (none, ri, oi) ∧
    backendsFor .darwin = [CAP_AVFOUNDATION, CAP_ANY] ∧
    backendsFor .windows = [CAP_MSMF, CAP_DSHOW, CAP_ANY] ∧
    backendsFor .linux = [CAP_V4L2, CAP_ANY] ∧
    ((openCapture d p ri oi).1 = none ∨
      ∃ c, c ∈ backendsFor p ∧ (openCapture d p ri oi).1 = some c) ∧
    sharedOpenAttempt d p none ri oi =
      (if d.openOk oi then some (defaultBackend p) else none, ri, oi + 1) ∧
    singleShot cfg .linux st dNoOpen = .error "Cannot open camera with any backend" := by
  refine ⟨fun h1 h2 => ?_, fun h1 => ?_, fun h1 h2 => ?_, fun h1 h2 => ?_,
          rfl, rfl, rfl, rfl, ?_, ?_, ?_⟩
  · simp [openCaptureGo, backendTrial, h1, h2]
  · simp [openCaptureGo, backendTrial, h1]
  · simp [openCaptureGo, backendTrial, h1, h2]
  · simp [openCaptureGo, backendTrial, h1, h2]
  · rcases hres : (openCapture d p ri oi).1 with _ | c
    · exact Or.inl rfl
    · exact Or.inr ⟨c, openCaptureGo_mem d (backendsFor p) ri oi c hres, rfl⟩
  · by_cases ho : d.openOk oi <;> simp [sharedOpenAttempt, ho]
  · simp [singleShot, openCapture, openCaptureGo, backendTrial, backendsFor, dNoOpen]

/-- Witness for C4 on the linux candidate list: `dRecover` at read index 3
is accepted by the head candidate; on `dNoOpen` the head candidate is
skipped and the single shot errors. -/
theorem open_capture_backend_fallback_witness :
    openCaptureGo dRecover (CAP_V4L2 :: [CAP_ANY]) 3 0 = (some CAP_V4L2, 4, 1) ∧
    openCaptureGo dNoOpen (CAP_V4L2 :: [CAP_ANY]) 0 0 = openCaptureGo dNoOpen [CAP_ANY] 0 1 ∧
    openCaptureGo dOpenNoFrame (CAP_V4L2 :: [CAP_ANY]) 0 0 =
      openCaptureGo dOpenNoFrame [CAP_ANY] 1 1 ∧
    singleShot ⟨0, 640, 480, 85, 5, 150, 0, 15, 1500, "imageBase64"⟩ .linux
        ⟨false, false, none, none, 0, 0, 0, 0⟩ dNoOpen =
      .error "Cannot open camera with any backend" := by
  have h1 := open_capture_backend_fallback dRecover .linux CAP_V4L2 [CAP_ANY] 3 0 [7]
    ⟨0, 640, 480, 85, 5, 150, 0, 15, 1500, "imageBase64"⟩ ⟨false, false, none, none, 0, 0, 0, 0⟩
  have h2 := open_capture_backend_fallback dNoOpen .linux CAP_V4L2 [CAP_ANY] 0 0 [7]
    ⟨0, 640, 480, 85, 5, 150, 0, 15, 1500, "imageBase64"⟩ ⟨false, false, none, none, 0, 0, 0, 0⟩
  have h3 := open_capture_backend_fallback dOpenNoFrame .linux CAP_V4L2 [CAP_ANY] 0 0 [7]
    ⟨0, 640, 480, 85, 5, 150, 0, 15, 1500, "imageBase64"⟩ ⟨false, false, none, none, 0, 0, 0, 0⟩
  exact ⟨h1.1 rfl (by decide), h2.2.1 rfl, h3.2.2.1 rfl rfl, h2.2.2.2.2.2.2.2.2.2.2⟩

/-- C5: on a read returning no frame while the loop runs with an open
camera, up to three soft re-reads are attempted, each after a 0.05 s delay;
a recovery on any of them leaves the loop running with the
consecutive-failure counter reset to 0, exactly three failed re-reads
precede the reopen escalation, and any later successful read also resets
the counter while the loop keeps running. -/
theorem soft_retry_recovery (d : Device) (p : Platform) (s : LoopSt)
    (f g : Bytes) (ri : Nat) :
    (s.stopSet = false → s.cap = true →
      d.readRes s.reads = .noFrame → d.readRes (s.reads + 1) = .frameOk f →
      procStep d p s = .inl { s with failures := 0, reads := s.reads + 2 }) ∧
    (s.stopSet = false → s.cap = true →
      d.readRes s.reads = .noFrame → d.readRes (s.reads + 1) = .noFrame →
      d.readRes (s.reads + 2) = .noFrame → d.readRes (s.reads + 3) = .frameOk g →
      procStep d p s = .inl { s with failures := 0, reads := s.reads + 4 }) ∧
    (d.readRes ri = .noFrame → d.readRes (ri + 1) = .noFrame →
      d.readRes (ri + 2) = .noFrame →
      softRetry d ri [] 3 = .notRecovered (ri + 3) [1/20, 1/20, 1/20]) ∧
    (s.stopSet = false → s.cap = true → d.readRes s.reads = .frameOk f →
      ∃ s', procStep d p s = .inl s' ∧ s'.failures = 0 ∧ s'.reads = s.reads + 1) := by
  refine ⟨fun h1 h2 h3 h4 => ?_, fun h1 h2 h3 h4 h5 h6 => ?_,
          fun h1 h2 h3 => ?_, fun h1 h2 h3 => ?_⟩
  · simp [procStep, readPhase, softRetry, h1, h2, h3, h4]
  · simp [procStep, readPhase, softRetry, h1, h2, h3, h4, h5, h6]
  · simp [softRetry, h1, h2, h3]
  · by_cases he : d.encodeOk s.encodes
    · refine ⟨{ s with failures := 0, reads := s.reads + 1
                       encodes := s.encodes + 1, latest := some f }, ?_, rfl, rfl⟩
      simp [procStep, readPhase, h1, h2, h3, he]
    · refine ⟨{ s with failures := 0, reads := s.reads + 1
                       encodes := s.encodes + 1 }, ?_, rfl, rfl⟩
      simp [procStep, readPhase, h1, h2, h3, he]

/-- Witness for C5 on `dRecover` (three missing frames, then frames). -/
theorem soft_retry_recovery_witness :
    procStep dRecover .linux ⟨true, 5, none, false, 2, 0, 0⟩ =
      .inl ⟨true, 0, none, false, 4, 0, 0⟩ ∧
    procStep dRecover .linux ⟨true, 5, none, false, 0, 0, 0⟩ =
      .inl ⟨true, 0, none, false, 4, 0, 0⟩ ∧
    softRetry dRecover 0 [] 3 = .notRecovered 3 [1/20, 1/20, 1/20] ∧
    (∃ s', procStep dRecover .linux ⟨true, 5, some [9], false, 3, 0, 0⟩ = .inl s' ∧
      s'.failures = 0 ∧ s'.reads = 3 + 1) := by
  have h1 := soft_retry_recovery dRecover .linux ⟨true, 5, none, false, 2, 0, 0⟩ [7] [7] 0
  have h2 := soft_retry_recovery dRecover .linux ⟨true, 5, none, false, 0, 0, 0⟩ [7] [7] 0
  have h3 := soft_retry_recovery dRecover .linux ⟨true, 5, some [9], false, 3, 0, 0⟩ [7] [7] 0
  exact ⟨h1.1 rfl rfl (by decide) (by decide),
         h2.2.1 rfl rfl (by decide) (by decide) (by decide) (by decide),
         h2.2.2.1 (by decide) (by decide) (by decide),
         h3.2.2.2 rfl rfl (by decide)⟩

/-- C8 counterexample: the configured JPEG quality is handed to
`cv2.imencode` verbatim — for quality 999 (or −3) the parameter list is
`[IMWRITE_JPEG_QUALITY, 999]` (resp. −3), outside the valid 0–100 range;
no clamping happens anywhere. -/
theorem imencode_quality_not_clamped :
    imencodeParams 999 = [IMWRITE_JPEG_QUALITY, 999] ∧
    imencodeParams (-3) = [IMWRITE_JPEG_QUALITY, -3] ∧
    ¬((999 : Int) ≤ 100) ∧ ¬((0 : Int) ≤ -3) := by
  refine ⟨rfl, rfl, by decide, by decide⟩

/-- C8 amended: both loops derive the poll interval as
`1.0 / max(1.0, fps)`, so the divisor is at least 1 — never zero or
negative for any fps, including zero and negatives — and the interval lies
in (0, 1]; the JPEG quality, in contrast, is passed to the encoder
unclamped. -/
theorem fps_clamped_quality_not (fps : ℚ) (q : Int) :
    loopInterval fps = 1 / max 1 fps ∧
    (1 : ℚ) ≤ max 1 fps ∧
    (0 : ℚ) < max 1 fps ∧
    0 < loopInterval fps ∧
    loopInterval fps ≤ 1 ∧
    imencodeParams q = [IMWRITE_JPEG_QUALITY, q] := by
  have h1 : (1 : ℚ) ≤ max 1 fps := le_max_left 1 fps
  have h0 : (0 : ℚ) < max 1 fps := lt_of_lt_of_le one_pos h1
  refine ⟨rfl, h1, h0, ?_, ?_, rfl⟩
  · exact div_pos one_pos h0
  · exact (div_le_one h0).mpr h1

/-- With a device whose every read returns no frame, the `_open_capture`
candidate loop rejects every candidate. -/
theorem openCaptureGo_allNoFrame (d : Device) (hr : ∀ i, d.readRes i = .noFrame) :
    ∀ (bs : List Int) (ri oi : Nat), ∃ ri' oi',
      openCaptureGo d bs ri oi = (none, ri', oi') := by
  intro bs
  induction bs with
  | nil => exact fun ri oi => ⟨ri, oi, rfl⟩
  | cons b rest ih =>
    intro ri oi
    cases ho : d.openOk oi with
    | false =>
      obtain ⟨ri', oi', h⟩ := ih ri (oi + 1)
      exact ⟨ri', oi', by simp [openCaptureGo, backendTrial, ho, h]⟩
    | true =>
      obtain ⟨ri', oi', h⟩ := ih (ri + 1) (oi + 1)
      exact ⟨ri', oi', by simp [openCaptureGo, backendTrial, ho, hr ri, h]⟩

/-- With a device whose every read returns no frame, `_ensure_camera_open`
called without a held capture always raises, leaving no capture open. -/
theorem ensureOpen_allNoFrame (d : Device) (p : Platform)
    (hr : ∀ i, d.readRes i = .noFrame) (ri oi : Nat) :
    ∃ ri' oi', ensureOpen d p false ri oi = ⟨false, false, ri', oi'⟩ := by
  obtain ⟨ri', oi', h⟩ := openCaptureGo_allNoFrame d hr (backendsFor p) ri oi
  exact ⟨ri', oi', by simp [ensureOpen, reopenCamera, openCapture, h]⟩

/-- With a device whose every read returns no frame, one `_stream_loop`
iteration from a capture-less running state increments
`consecutive_failures` by exactly one and exits with fail-stop exactly when
the counter reaches `max_failures`. -/
theorem procStep_allNoFrame (d : Device) (p : Platform) (s : LoopSt)
    (hr : ∀ i, d.readRes i = .noFrame) (hcap : s.cap = false)
    (hstop : s.stopSet = false) :
    ∃ ri oi, procStep d p s =
      if maxFailures ≤ s.failures + 1 then
        .inr ({ s with failures := s.failures + 1, reads := ri, opens := oi }, .failStop)
      else .inl { s with failures := s.failures + 1, reads := ri, opens := oi } := by
  obtain ⟨ri', oi', he⟩ := ensureOpen_allNoFrame d p hr s.reads s.opens
  refine ⟨ri', oi', ?_⟩
  by_cases hm : maxFailures ≤ s.failures + 1 <;>
    simp [procStep, hstop, hcap, he, hm]

/-- With a device whose every read returns no frame, the `_stream_loop`
body started capture-less with `failures + k + 1 = max_failures` exits with
fail-stop after exactly `k + 1` further iterations, the counter at the
maximum and the cached frame untouched. -/
theorem procRun_allNoFrame_exits (d : Device) (p : Platform)
    (hr : ∀ i, d.readRes i = .noFrame) :
    ∀ (k : Nat) (s : LoopSt), s.cap = false → s.stopSet = false →
      s.failures + (k + 1) = maxFailures →
      ∃ s', procRun d p s (k + 1) = .inr (s', .failStop) ∧
        s'.failures = maxFailures ∧ s'.latest = s.latest ∧
        s'.stopSet = false ∧ s'.cap = false := by
  intro k
  induction k with
  | zero =>
    intro s hcap hstop hf
    obtain ⟨ri, oi, hstep⟩ := procStep_allNoFrame d p s hr hcap hstop
    rw [if_pos (by omega)] at hstep
    refine ⟨{ s with failures := s.failures + 1, reads := ri, opens := oi },
            ?_, by show s.failures + 1 = maxFailures; omega, rfl, hstop, hcap⟩
    simp [procRun, hstep]
  | succ k ih =>
    intro s hcap hstop hf
    obtain ⟨ri, oi, hstep⟩ := procStep_allNoFrame d p s hr hcap hstop
    rw [if_neg (by omega)] at hstep
    obtain ⟨s', h1, h2, h3, h4, h5⟩ :=
      ih { s with failures := s.failures + 1, reads := ri, opens := oi }
        hcap hstop (by show s.failures + 1 + (k + 1) = maxFailures; omega)
    refine ⟨s', ?_, h2, h3, h4, h5⟩
    simp only [procRun, hstep]
    exact h1

/-- C3 amended: in `CameraInputProcessor._stream_loop`, once the loop runs
without a capture and every further read and reopen fails, each iteration
increments the one shared `consecutive_failures` counter by exactly one and
the loop exits with fail-stop as soon as the counter reaches the fixed
maximum 10, the cached frame left in place; if instead every read fails
from the very start, the initial open raises and the worker exits at once
with the counter still 0.  (`_SharedCamera._loop` has no such counter; see
the counterexample.) -/
theorem stream_loop_fail_stop (d : Device) (p : Platform) (s : LoopSt)
    (l : Option Bytes) (n : Nat)
    (hr : ∀ i, d.readRes i = .noFrame) (hcap : s.cap = false)
    (hstop : s.stopSet = false) (hf : s.failures < maxFailures) :
    (s.failures + 1 < maxFailures →
      ∃ s', procStep d p s = .inl s' ∧ s'.failures = s.failures + 1 ∧
        s'.latest = s.latest ∧ s'.cap = false ∧ s'.stopSet = false) ∧
    (∃ s', procRun d p s (maxFailures - s.failures) = .inr (s', .failStop) ∧
      s'.failures = maxFailures ∧ s'.latest = s.latest) ∧
    (∃ s', streamLoopRun d p l n = .inr (s', .error) ∧ s'.failures = 0 ∧
      s'.latest = l) := by
  refine ⟨fun hlt => ?_, ?_, ?_⟩
  · obtain ⟨ri, oi, hstep⟩ := procStep_allNoFrame d p s hr hcap hstop
    rw [if_neg (by omega)] at hstep
    exact ⟨{ s with failures := s.failures + 1, reads := ri, opens := oi },
           hstep, rfl, rfl, hcap, hstop⟩
  · obtain ⟨s', h1, h2, h3, _, _⟩ :=
      procRun_allNoFrame_exits d p hr (maxFailures - s.failures - 1) s hcap hstop
        (by omega)
    refine ⟨s', ?_, h2, h3⟩
    have hk : maxFailures - s.failures - 1 + 1 = maxFailures - s.failures := by omega
    rw [hk] at h1
    exact h1
  · obtain ⟨ri, oi, he⟩ := ensureOpen_allNoFrame d p hr 0 0
    exact ⟨{ cap := false, failures := 0, latest := l, stopSet := false
             reads := ri, opens := oi, encodes := 0 },
           by simp [streamLoopRun, he], rfl, rfl⟩

/-- Witness for C3 on a device that opens but never delivers a frame,
starting capture-less with the counter at 0 and a stale frame cached. -/
theorem stream_loop_fail_stop_witness :
    (∃ s', procStep dOpenNoFrame .linux ⟨false, 0, some [7], false, 0, 0, 0⟩ =
        .inl s' ∧ s'.failures = 0 + 1 ∧ s'.latest = some [7] ∧
        s'.cap = false ∧ s'.stopSet = false) ∧
    (∃ s', procRun dOpenNoFrame .linux ⟨false, 0, some [7], false, 0, 0, 0⟩
        (maxFailures - 0) = .inr (s', .failStop) ∧
      s'.failures = maxFailures ∧ s'.latest = some [7]) ∧
    (∃ s', streamLoopRun dOpenNoFrame .linux (some [9]) 5 = .inr (s', .error) ∧
      s'.failures = 0 ∧ s'.latest = some [9]) := by
  have h := stream_loop_fail_stop dOpenNoFrame .linux
    ⟨false, 0, some [7], false, 0, 0, 0⟩ (some [9]) 5
    (fun _ => rfl) rfl rfl (by decide)
  exact ⟨h.1 (by decide), h.2.1, h.2.2⟩

/-- C3 counterexample: `_SharedCamera._loop` has no failure counter and no
fail-stop: with a device that opens and then fails every read, the worker
is still running after 30 consecutive failed read iterations, having
retried each one. -/
theorem shared_loop_never_fail_stops :
    sharedLoopRun dOpenNoFrame .linux none (some [7]) 30 =
      .inl { capOpen := true, latest_jpeg := some [7], stopSet := false
             reads := 30, opens := 1, encodes := 0 } := by
  rfl

end CameraStream
